import Mathlib

/-!
Shallow embedding of `download.py` (planet.com image download pipeline).

The program is a four-stage pipeline (search → activate → is_active → download)
communicating over FIFO queues.  Queues are modelled as Lean lists: `put`
appends at the tail, `get` removes the head.  Each stage's `while True` loop
body is modelled as a pure step function on the queue state; the network is
an oracle parameter supplying the HTTP response each call would have seen.
Python exceptions that the source catches are modelled in the branch
structure; exceptions the source does not catch surface as a `StepRes.exn`
result carrying the queue state at the moment the exception escapes.
-/

namespace PlanetDl

/-- Parsed JSON values, as produced by `result.json()` in the source. -/
inductive Json where
  | null
  | bool (b : Bool)
  | num (q : Rat)
  | str (s : String)
  | arr (xs : List Json)
  | obj (kvs : List (String × Json))
deriving Repr

/-- Python exceptions that can escape the modelled code paths. -/
inductive PyError where
  | keyError (k : Option String)
  | typeError
  | valueError
deriving Repr, DecidableEq

/-- Python truthiness of a JSON value (`if not assets_result_json`, line 128). -/
def Json.falsy : Json → Bool
  | .null => true
  | .bool b => !b
  | .num q => q == 0
  | .str s => s.isEmpty
  | .arr xs => xs.isEmpty
  | .obj kvs => kvs.isEmpty

/-- Python subscription `j[k]`: a dict lookup that raises `KeyError` when the
key is absent (keys produced by JSON parsing are strings, so a `None` key never
matches), and `TypeError`-like failure on non-dict values. -/
def Json.index (j : Json) (k : Option String) : Except PyError Json :=
  match j, k with
  | .obj kvs, some key =>
    match kvs.lookup key with
    | some v => .ok v
    | none => .error (.keyError (some key))
  | .obj _, none => .error (.keyError none)
  | _, _ => .error .typeError

/-- Python `j == s` for a string literal `s`: true only for an equal string. -/
def Json.eqStr (j : Json) (s : String) : Bool :=
  match j with
  | .str t => t == s
  | _ => false

/-- Outcome of the HTTP GET inside `check_active_asset` (lines 117-127):
either the request raised `requests.exceptions.ReadTimeout` (caught), or a
response arrived whose body either fails JSON decoding
(`json.decoder.JSONDecodeError`, caught) or parses to a JSON value. -/
inductive AssetsResp where
  | readTimeout
  | jsonError
  | body (j : Json)

/-- `check_active_asset` (lines 111-132).  Returns the pair the Python
function returns — `(None, None)` on timeout, decode error or falsy body,
`(True, location)` or `(False, activation link)` otherwise — or the
`KeyError`/`TypeError` the subscriptions on lines 130-132 can raise. -/
def check_active_asset (resp : AssetsResp) (asset_type : Option String) :
    Except PyError (Option Bool × Option Json) :=
  match resp with
  | .readTimeout => .ok (none, none)
  | .jsonError => .ok (none, none)
  | .body j =>
    if j.falsy then .ok (none, none)
    else
      match j.index asset_type with
      | .error e => .error e
      | .ok a =>
        match a.index (some "status") with
        | .error e => .error e
        | .ok st =>
          if st.eqStr "active" then
            match a.index (some "location") with
            | .error e => .error e
            | .ok loc => .ok (some true, some loc)
          else
            match a.index (some "_links") with
            | .error e => .error e
            | .ok links =>
              match links.index (some "activate") with
              | .error e => .error e
              | .ok act => .ok (some false, some act)

/-- An entry of `queue_inactive_assets`: the tuple
`(item_id, section, asset_type, timestamp)`; the termination marker is
`(None, None, None, None)`.  The configuration section name is called `sect`
here because `section` is reserved in Lean. -/
structure PendTask where
  item_id : Option String
  sect : Option String
  asset_type : Option String
  timestamp : Option Int
deriving Repr, DecidableEq

/-- An entry of `queue_active_assets`: the tuple
`(item_id, section, asset_type, link)`; the termination marker is
`(None, None, None, None)`. -/
structure ReadyTask where
  item_id : Option String
  sect : Option String
  asset_type : Option String
  link : Option Json
deriving Repr

/-- The termination marker `(None, None, None, None)` on the pending queue. -/
def pendMarker : PendTask := ⟨none, none, none, none⟩

/-- The termination marker `(None, None, None, None)` on the ready queue. -/
def readyMarker : ReadyTask := ⟨none, none, none, none⟩

/-- Result of one loop iteration of a stage: the loop continues with an
updated queue state, the function returns, or an uncaught Python exception
escapes with the queue state at that moment. -/
inductive StepRes (σ : Type) where
  | cont (s : σ)
  | ret (s : σ)
  | exn (e : PyError) (s : σ)
deriving Repr

/-- Python `timestamp < bound` where `timestamp` came out of the queue tuple:
comparing `None` with an int raises `TypeError`. -/
def pyLt (a : Option Int) (b : Int) : Except PyError Bool :=
  match a with
  | some x => .ok (decide (x < b))
  | none => .error .typeError

/-- The two queues the `is_active` stage touches. -/
structure PollState where
  pending : List PendTask
  ready : List ReadyTask
deriving Repr

/-- One iteration of the `while True` loop of `is_active` (lines 86-108).
`resp` supplies the assets response the status check would receive for a given
item id and asset type; `now` is the value of `time.time()` at line 101.
An empty pending queue (the `queue.Empty` branch) sleeps and continues.  On a
marker with an otherwise empty queue the stage puts a marker on the ready
queue and returns (lines 93-97); on a marker with a non-empty queue it
re-enqueues the marker and continues (lines 98-100).  For a real task, the
timestamp test on line 101 re-enqueues the task *before* the status check,
line 107 promotes an active task to the ready queue, and line 108 re-enqueues
the task unconditionally. -/
def is_active_step (resp : String → Option String → AssetsResp) (now : Int)
    (s : PollState) : StepRes PollState :=
  match s.pending with
  | [] => .cont s
  | t :: rest =>
    match t.item_id with
    | none =>
      if rest.isEmpty then
        .ret ⟨rest, s.ready ++ [readyMarker]⟩
      else
        .cont ⟨rest ++ [pendMarker], s.ready⟩
    | some iid =>
      match pyLt t.timestamp (now + 180) with
      | .error e => .exn e ⟨rest, s.ready⟩
      | .ok lt =>
        let pending1 := if lt then rest ++ [t] else rest
        match check_active_asset (resp iid t.asset_type) t.asset_type with
        | .error e => .exn e ⟨pending1, s.ready⟩
        | .ok (active, link) =>
          let ready1 :=
            if active = some true then
              s.ready ++ [⟨t.item_id, t.sect, t.asset_type, link⟩]
            else s.ready
          .cont ⟨pending1 ++ [t], ready1⟩

/-- Iterated `is_active` loop: each list element supplies the response oracle
and the clock value for one iteration.  A `ret` or `exn` stops the run. -/
def is_active_run (envs : List ((String → Option String → AssetsResp) × Int))
    (s : PollState) : StepRes PollState :=
  match envs with
  | [] => .cont s
  | (r, nw) :: es =>
    match is_active_step r nw s with
    | .cont s' => is_active_run es s'
    | other => other

/-- Queues the `activate` stage writes, plus a log of the activation links it
issued a GET on (line 157-159): the observable outward effect of the stage. -/
structure ActState where
  pending : List PendTask
  ready : List ReadyTask
  activations : List Json
deriving Repr

/-- The `for asset_type in ["analytic", "analytic_xml"]` loop body of
`activate` (lines 151-164), folded over a list of asset kinds.  `resp` gives
the assets response for a kind.  An indeterminate check (`active is None`)
skips the kind without emitting any task (line 153-154); an inactive check
GETs the activation link and enqueues a pending task stamped with `now`
(lines 155-161); an active check enqueues a ready task (lines 162-164).
A `KeyError` from the status check escapes the loop. -/
def activate_kinds (resp : String → AssetsResp) (iid sect : Option String)
    (now : Int) : List String → ActState → StepRes ActState
  | [], s => .cont s
  | aty :: rest, s =>
    match check_active_asset (resp aty) (some aty) with
    | .error e => .exn e s
    | .ok (none, _) => activate_kinds resp iid sect now rest s
    | .ok (some false, link) =>
      activate_kinds resp iid sect now rest
        ⟨s.pending ++ [⟨iid, sect, some aty, some now⟩], s.ready,
         s.activations ++ link.toList⟩
    | .ok (some true, link) =>
      activate_kinds resp iid sect now rest
        ⟨s.pending, s.ready ++ [⟨iid, sect, some aty, link⟩], s.activations⟩

/-- One iteration of `activate`'s `while True` loop (lines 141-164) on a
dequeued item-queue entry `(item_id, section)`.  When both components are
`None` (line 147) the stage forwards one termination marker to the pending
queue and returns (lines 148-150); otherwise it runs the asset-kind loop. -/
def activate_step (resp : String → AssetsResp) (now : Int)
    (item : Option String × Option String) (s : ActState) : StepRes ActState :=
  if item.1.isNone && item.2.isNone then
    .ret ⟨s.pending ++ [pendMarker], s.ready, s.activations⟩
  else
    activate_kinds resp item.1 item.2 now ["analytic", "analytic_xml"] s

/-- One configuration section of `config.ini` as the source reads it:
`CONFIG[section]['download']`, `['from']`, `['to']`, `['cloud_limit']`
(configparser values are strings).  The `from`/`to` keys are reserved words
in Lean, hence `fromDate`/`toDate`. -/
structure SectCfg where
  download : String
  fromDate : String
  toDate : String
  cloud_limit : String
deriving Repr, DecidableEq

/-- The parsed `config.ini`: a partial map from section names to sections. -/
def Config : Type := String → Option SectCfg

/-- `CONFIG[section]` where `section` came out of a queue tuple and may be
`None`: configparser's `__getitem__` raises `KeyError` for any key that is
not a section name (a `None` key is never one). -/
def configIndex (cfg : Config) (k : Option String) : Except PyError SectCfg :=
  match k with
  | none => .error (.keyError none)
  | some s =>
    match cfg s with
    | some c => .ok c
    | none => .error (.keyError (some s))

/-- Python `"{}...".format(x)` rendering of a value that may be `None`. -/
def pyStr : Option String → String
  | none => "None"
  | some s => s

/-- Destination filename derivation in `download` (lines 65-68):
`"{}.tif".format(item_id)` when `asset_type == "analytic"`, else
`"{}.xml".format(item_id)`. -/
def download_fname (item_id asset_type : Option String) : String :=
  if asset_type = some "analytic" then pyStr item_id ++ ".tif"
  else pyStr item_id ++ ".xml"

/-- `os.path.join` for the two-component joins the source performs. -/
def path_join (d f : String) : String := d ++ "/" ++ f

/-- Line 60 reads `if queue_active_assets.qsize == 0` — without parentheses,
so the bound method object itself is compared with the integer `0`.  In
Python 3 a method never equals an int, hence the test is always `False`
(elsewhere the source calls `qsize()` correctly, lines 69 and 94). -/
def qsize_method_eq_zero : Bool := false

/-- Outcome of one `download_file` call (lines 21-44) as seen from the
`try` block on lines 73-77: success writes the file; a
`requests.exceptions.ReadTimeout` or `OSError` is caught and re-enqueues the
task; any other exception escapes uncaught. -/
inductive DlOutcome where
  | success
  | transient
  | raised (e : PyError)

/-- The state the `download` stage touches: its input queue and the set of
paths present on the local filesystem. -/
structure DlState where
  ready : List ReadyTask
  files : List String
deriving Repr

/-- The tail of the `download` loop body from line 65 on, applied to the
dequeued task `t` with the ready queue already updated to `ready1` by the
sentinel branch: derive the filename, subscript the configuration with the
task's section (`KeyError` escapes for a `None` or unknown section), skip if
the path exists, else attempt the download. -/
def download_process (cfg : Config) (dl : ReadyTask → DlOutcome)
    (t : ReadyTask) (ready1 : List ReadyTask) (files : List String) :
    StepRes DlState :=
  let fname := download_fname t.item_id t.asset_type
  match configIndex cfg t.sect with
  | .error e => .exn e ⟨ready1, files⟩
  | .ok c =>
    let path := path_join c.download fname
    if path ∈ files then .cont ⟨ready1, files⟩
    else
      match dl t with
      | .success => .cont ⟨ready1, files ++ [path]⟩
      | .transient => .cont ⟨ready1 ++ [t], files⟩
      | .raised e => .exn e ⟨ready1, files⟩

/-- One iteration of `download`'s `while True` loop (lines 53-77).  On the
marker (line 59) the test `qsize == 0` (line 60) never holds — see
`qsize_method_eq_zero` — so the marker is re-enqueued (line 64) and, the
branch having no `continue`, control falls through into the regular
task-processing code. -/
def download_step (cfg : Config) (dl : ReadyTask → DlOutcome) (s : DlState) :
    StepRes DlState :=
  match s.ready with
  | [] => .cont s
  | t :: rest =>
    if t.item_id.isNone then
      if qsize_method_eq_zero then
        .ret ⟨rest, s.files⟩
      else
        download_process cfg dl t (rest ++ [readyMarker]) s.files
    else
      download_process cfg dl t rest s.files

/-- `ITEM_TYPE` (line 18). -/
def ITEM_TYPE : String := "PSScene4Band"

/-- Value of a string of decimal digits. -/
def decDigits (cs : List Char) : Nat :=
  cs.foldl (fun n c => n * 10 + (c.toNat - 48)) 0

/-- Python `float()` on the decimal literals configparser hands it: optional
sign, integer digits, optionally a point and fraction digits; any other shape
raises `ValueError` (modelled as `none`).  Decimal values are modelled as
exact rationals built with `mkRat`. -/
def pyFloat (s : String) : Option Rat :=
  let cs0 := s.toList
  let negAndDigits :=
    match cs0 with
    | '-' :: r => (true, r)
    | '+' :: r => (false, r)
    | _ => (false, cs0)
  let neg := negAndDigits.1
  let cs := negAndDigits.2
  let ip := cs.takeWhile (fun c => c != '.')
  let rest := cs.dropWhile (fun c => c != '.')
  let mk : Nat → Nat → Option Rat := fun numr den =>
    some (if neg then -(mkRat numr den) else mkRat numr den)
  match rest with
  | [] =>
    if 0 < ip.length && ip.all Char.isDigit then mk (decDigits ip) 1
    else none
  | _ :: fp =>
    if 0 < ip.length + fp.length && ip.all Char.isDigit
        && fp.all Char.isDigit then
      mk (decDigits ip * 10 ^ fp.length + decDigits fp) (10 ^ fp.length)
    else none

/-- `search_query` (lines 167-207): builds the search request document for a
region's geometry and configuration section.  `float(CONFIG[section]
['cloud_limit'])` raises `ValueError` on a non-numeric string. -/
def search_query (geojson_geometry : Json) (c : SectCfg) :
    Except PyError Json :=
  match pyFloat c.cloud_limit with
  | none => .error .valueError
  | some q =>
    .ok (.obj [
      ("interval", .str "day"),
      ("item_types", .arr [.str ITEM_TYPE]),
      ("filter", .obj [
        ("type", .str "AndFilter"),
        ("config", .arr [
          .obj [("type", .str "GeometryFilter"),
                ("field_name", .str "geometry"),
                ("config", geojson_geometry)],
          .obj [("type", .str "DateRangeFilter"),
                ("field_name", .str "acquired"),
                ("config", .obj [
                  ("gte", .str (c.fromDate ++ "T00:00:00.000Z")),
                  ("lte", .str (c.toDate ++ "T00:00:00.000Z"))])],
          .obj [("type", .str "RangeFilter"),
                ("field_name", .str "cloud_cover"),
                ("config", .obj [("lte", .num q)])]
        ])
      ])
    ])

/-- Python list subscription `xs[i]` on a JSON array. -/
def Json.atIdx : Json → Nat → Except PyError Json
  | .arr xs, i =>
    match xs.get? i with
    | some v => .ok v
    | none => .error (.keyError none)
  | _, _ => .error .typeError

/-! ### Invariant vocabulary for the queue contents -/

/-- A ready-queue entry is the termination marker iff its item id is null. -/
def isReadyMarker (t : ReadyTask) : Bool := t.item_id.isNone

/-- Number of termination markers on the ready queue. -/
def markerCount (l : List ReadyTask) : Nat := (l.filter isReadyMarker).length

/-- A pending-queue entry is a real task iff its item id is non-null. -/
def isRealPend (t : PendTask) : Bool := t.item_id.isSome

/-- The pending queue holds at least one real (non-marker) task. -/
def hasRealTask (l : List PendTask) : Prop := ∃ t ∈ l, isRealPend t = true

/-- Well-formed pending queue: every real task carries a timestamp, as every
task `activate` or `is_active` ever enqueues does. -/
def WfPend (l : List PendTask) : Prop :=
  ∀ t ∈ l, isRealPend t = true → t.timestamp.isSome = true

/-- The response oracle never makes `check_active_asset` raise: every check
returns a pair (as it does on timeouts, decode failures, falsy bodies and
bodies carrying the requested asset kind with the expected fields). -/
def RespOk (r : String → Option String → AssetsResp) : Prop :=
  ∀ iid aty, ∃ v, check_active_asset (r iid aty) aty = Except.ok v

/-- Did an `Except`-modelled call return normally? -/
def retOk {α : Type} : Except PyError α → Bool
  | .ok _ => true
  | .error _ => false

/-! ### Concrete fixtures used to evaluate the model -/

/-- Oracle under which every status-check GET times out. -/
def respTimeout : String → Option String → AssetsResp := fun _ _ => .readTimeout

/-- Assets response body for an item whose analytic asset is active. -/
def bodyActive : Json :=
  .obj [("analytic", .obj [("status", .str "active"),
                           ("location", .str "http://api.planet.com/dl/1")])]

/-- Oracle answering every status check with `bodyActive`. -/
def respActive : String → Option String → AssetsResp := fun _ _ => .body bodyActive

/-- A real pending task as `activate` enqueues it. -/
def taskA : PendTask :=
  ⟨some "20230101_123456_abcd", some "region1", some "analytic", some 100⟩

/-- A real ready task as `activate` or `is_active` enqueues it. -/
def readyA : ReadyTask :=
  ⟨some "20230101_123456_abcd", some "region1", some "analytic_xml",
   some (.str "http://api.planet.com/dl/2")⟩

/-- A one-section configuration file. -/
def cfgOne : Config := fun s =>
  if s = "region1" then
    some ⟨"/data/region1", "2023-01-01", "2023-02-01", "0.5"⟩
  else none

/-- The configuration section used for the search-query evaluations. -/
def sectFix : SectCfg := ⟨"/data/region1", "2023-01-01", "2023-02-01", "0.5"⟩

/-- A concrete region footprint. -/
def geomFix : Json :=
  .obj [("type", .str "Polygon"),
        ("coordinates", .arr [.arr [.num 0, .num 0]])]

/-- A poll-queue state as it stands right after `activate` finished: one real
task followed by the termination marker. -/
def pollAfterActivate : PollState := ⟨[taskA, pendMarker], []⟩

/-- The marker is never forwarded from `s`: however many `is_active`
iterations run (with every check timing out and the clock at 101), the loop
is still going and the ready queue holds no termination marker. -/
def MarkerNeverForwarded (s : PollState) : Prop :=
  ∀ n : Nat, ∃ s', is_active_run (List.replicate n (respTimeout, 101)) s =
    .cont s' ∧ markerCount s'.ready = 0

lemma markerCount_append (l : List ReadyTask) (x : ReadyTask) :
    markerCount (l ++ [x]) =
      markerCount l + (if isReadyMarker x then 1 else 0) := by
  simp only [markerCount, List.filter_append, List.length_append]
  congr 1
  by_cases h : isReadyMarker x = true <;> simp [h]

/-- One `is_active` iteration on a well-formed pending queue holding a real
task and driven by non-raising checks: the loop continues (no return, no
exception), the pending queue again holds a real task and stays well-formed,
and no termination marker is added to the ready queue. -/
lemma is_active_step_preserves (r : String → Option String → AssetsResp)
    (now : Int) (s : PollState) (hok : RespOk r) (hwf : WfPend s.pending)
    (hreal : hasRealTask s.pending) :
    ∃ s', is_active_step r now s = .cont s' ∧ WfPend s'.pending ∧
      hasRealTask s'.pending ∧ markerCount s'.ready = markerCount s.ready := by
  obtain ⟨pending, ready⟩ := s
  obtain ⟨t0, ht0, hreal0⟩ := hreal
  cases pending with
  | nil => cases ht0
  | cons t rest =>
    cases hid : t.item_id with
    | none =>
      have ht0rest : t0 ∈ rest := by
        rcases List.mem_cons.mp ht0 with h | h
        · subst h; simp [isRealPend, hid] at hreal0
        · exact h
      have hne : rest.isEmpty = false := by
        cases rest with
        | nil => cases ht0rest
        | cons a l => rfl
      refine ⟨⟨rest ++ [pendMarker], ready⟩, ?_, ?_, ?_, rfl⟩
      · simp only [is_active_step, hid, hne]
        rfl
      · intro x hx hxr
        rcases List.mem_append.mp hx with h | h
        · exact hwf x (List.mem_cons_of_mem _ h) hxr
        · rcases List.mem_singleton.mp h with rfl
          simp [isRealPend, pendMarker] at hxr
      · exact ⟨t0, List.mem_append_left _ ht0rest, hreal0⟩
    | some iid =>
      have hts : t.timestamp.isSome = true :=
        hwf t (List.mem_cons_self t rest) (by simp [isRealPend, hid])
      obtain ⟨ts, hts⟩ := Option.isSome_iff_exists.mp hts
      obtain ⟨⟨active, link⟩, hv⟩ := hok iid t.asset_type
      have hstep : is_active_step r now ⟨t :: rest, ready⟩ =
          .cont ⟨(if decide (ts < now + 180) then rest ++ [t] else rest) ++ [t],
            if active = some true then
              ready ++ [⟨t.item_id, t.sect, t.asset_type, link⟩]
            else ready⟩ := by
        simp only [is_active_step, hid, hts, pyLt, hv]
      refine ⟨_, hstep, ?_, ?_, ?_⟩
      · intro x hx hxr
        have hx' : x ∈ rest ∨ x = t := by
          rcases List.mem_append.mp hx with h | h
          · by_cases hlt : decide (ts < now + 180) = true
            · rw [hlt] at h
              simp only [if_true] at h
              rcases List.mem_append.mp h with h2 | h2
              · exact Or.inl h2
              · exact Or.inr (List.mem_singleton.mp h2)
            · rw [Bool.not_eq_true] at hlt
              rw [hlt] at h
              simp only [Bool.false_eq_true, if_false] at h
              exact Or.inl h
          · exact Or.inr (List.mem_singleton.mp h)
        rcases hx' with h | rfl
        · exact hwf x (List.mem_cons_of_mem _ h) hxr
        · exact hts ▸ rfl
      · exact ⟨t, List.mem_append_right _ (List.mem_singleton.mpr rfl),
          by simp [isRealPend, hid]⟩
      · by_cases hact : active = some true
        · simp only [hact, if_true]
          rw [markerCount_append]
          simp [isReadyMarker, hid]
        · simp [hact]

/-- Multi-step version of `is_active_step_preserves`: however many iterations
run and whatever well-behaved responses and clock values they see, the loop
neither returns nor raises, a real task stays pending, and the number of
markers on the ready queue does not change. -/
lemma is_active_run_preserves
    (envs : List ((String → Option String → AssetsResp) × Int))
    (s : PollState) (hok : ∀ e ∈ envs, RespOk e.1) (hwf : WfPend s.pending)
    (hreal : hasRealTask s.pending) :
    ∃ s', is_active_run envs s = .cont s' ∧ WfPend s'.pending ∧
      hasRealTask s'.pending ∧ markerCount s'.ready = markerCount s.ready := by
  induction envs generalizing s with
  | nil => exact ⟨s, rfl, hwf, hreal, rfl⟩
  | cons e es ih =>
    obtain ⟨r, nw⟩ := e
    obtain ⟨s1, hstep, hwf1, hreal1, hmc1⟩ :=
      is_active_step_preserves r nw s (hok _ (List.mem_cons_self _ _)) hwf hreal
    obtain ⟨s2, hrun, hwf2, hreal2, hmc2⟩ :=
      ih s1 (fun e he => hok e (List.mem_cons_of_mem _ he)) hwf1 hreal1
    refine ⟨s2, ?_, hwf2, hreal2, hmc2.trans hmc1⟩
    simp only [is_active_run, hstep, hrun]

/-- Every check under the always-timeout oracle returns `(None, None)`. -/
lemma respTimeout_ok : RespOk respTimeout := fun _ _ => ⟨(none, none), rfl⟩

/-- The poll state left behind by `activate` is well-formed. -/
lemma pollAfterActivate_wf : WfPend pollAfterActivate.pending := by
  intro t ht htr
  rcases List.mem_cons.mp ht with rfl | ht2
  · rfl
  · rcases List.mem_singleton.mp ht2 with rfl
    simp [isRealPend, pendMarker] at htr

/-- The poll state left behind by `activate` holds a real task. -/
lemma pollAfterActivate_hasReal : hasRealTask pollAfterActivate.pending :=
  ⟨taskA, List.mem_cons_self _ _, rfl⟩

/-- Replicated always-timeout environments are well-behaved. -/
lemma replicate_timeout_ok (n : Nat) :
    ∀ e ∈ List.replicate n (respTimeout, (101 : Int)), RespOk e.1 := by
  intro e he
  rw [List.eq_of_mem_replicate he]
  exact respTimeout_ok

/-! ### Claim theorems -/

/-- C9: the destination filename is derived deterministically from item
identifier and asset kind: kind `analytic` (primary data) yields
`{item_id}.tif`, kind `analytic_xml` (metadata) yields `{item_id}.xml`; in
particular item `20230101_123456_abcd` yields `20230101_123456_abcd.tif`
and `20230101_123456_abcd.xml`. -/
theorem download_fname_stable :
    (∀ id : String,
      download_fname (some id) (some "analytic") = id ++ ".tif") ∧
    (∀ id : String,
      download_fname (some id) (some "analytic_xml") = id ++ ".xml") ∧
    download_fname (some "20230101_123456_abcd") (some "analytic") =
      "20230101_123456_abcd.tif" ∧
    download_fname (some "20230101_123456_abcd") (some "analytic_xml") =
      "20230101_123456_abcd.xml" := by
  refine ⟨fun id => ?_, fun id => ?_, rfl, rfl⟩
  · simp [download_fname, pyStr]
  · simp [download_fname, pyStr]

/-- C2 (code bug): with the ready queue holding only the termination marker,
one `download` iteration does not print the end message and return: the
emptiness test on line 60 compares the bound method `qsize` itself with `0`
(missing call parentheses), which is always false, so the marker is
re-enqueued and — the branch having no `continue` — processed as a task,
raising `KeyError` at the `CONFIG[None]` subscription on line 70. -/
theorem download_marker_never_returns :
    qsize_method_eq_zero = false ∧
    download_step cfgOne (fun _ => .success) ⟨[readyMarker], []⟩ =
      .exn (.keyError none) ⟨[readyMarker], []⟩ :=
  ⟨rfl, rfl⟩

/-- C10 counterexample: when the marker is dequeued ahead of another ready
task, the fall-through processing raises `KeyError` at the `CONFIG[None]`
subscription before any download is attempted: even under an
always-succeeding download oracle no file is written, so `download_file` is
never called with the marker's `None` URL. -/
theorem download_marker_no_download_cex :
    download_step cfgOne (fun _ => .success) ⟨[readyMarker, readyA], ["f"]⟩ =
      .exn (.keyError none) ⟨[readyA, readyMarker], ["f"]⟩ :=
  rfl

/-- C10 (amended): when `download` dequeues the termination marker the
emptiness test never succeeds; the marker is re-enqueued and control falls
through past the sentinel branch into the regular task-processing code,
which treats the marker as a metadata task — the derived filename is
`None.xml` — and then raises `KeyError` when the configuration is
subscripted with the `None` section, before `download_file` can be called. -/
theorem download_marker_falls_through (cfg : Config)
    (dl : ReadyTask → DlOutcome) (rest : List ReadyTask)
    (files : List String) :
    download_fname none none = "None.xml" ∧
    download_step cfg dl ⟨readyMarker :: rest, files⟩ =
      .exn (.keyError none) ⟨rest ++ [readyMarker], files⟩ :=
  ⟨rfl, rfl⟩

/-- C7 counterexample: in the `activate` stage a status-check read timeout
yields the indeterminate classification and the asset task is dropped — for
an item whose checks for both asset kinds time out, the loop leaves the
queues unchanged and enqueues nothing for a later retry. -/
theorem activate_timeout_drop_cex :
    activate_kinds (fun _ => .readTimeout) (some "20230101_123456_abcd")
      (some "region1") 100 ["analytic", "analytic_xml"] ⟨[], [], []⟩ =
      .cont ⟨[], [], []⟩ :=
  rfl

/-- C7 (amended): a read timeout during a download re-enqueues the task onto
the ready queue and the stage continues; a read timeout during a poll-stage
status check still re-enqueues the task onto the pending queue; but a read
timeout during an activation-stage status check is classified indeterminate
and the asset task is dropped rather than retried. -/
theorem transient_error_recovery :
    (∀ (cfg : Config) (dl : ReadyTask → DlOutcome) (t : ReadyTask)
        (rest : List ReadyTask) (files : List String) (c : SectCfg),
      t.item_id.isSome = true →
      configIndex cfg t.sect = .ok c →
      path_join c.download (download_fname t.item_id t.asset_type) ∉ files →
      dl t = .transient →
      download_step cfg dl ⟨t :: rest, files⟩ = .cont ⟨rest ++ [t], files⟩) ∧
    (∀ (r : String → Option String → AssetsResp) (now : Int) (t : PendTask)
        (rest : List PendTask) (ready : List ReadyTask) (iid : String)
        (ts : Int),
      t.item_id = some iid → t.timestamp = some ts →
      r iid t.asset_type = .readTimeout →
      ∃ p' rd', is_active_step r now ⟨t :: rest, ready⟩ = .cont ⟨p', rd'⟩ ∧
        t ∈ p') ∧
    (∀ (resp : String → AssetsResp) (iid sect : Option String) (now : Int)
        (aty : String) (s : ActState),
      resp aty = .readTimeout →
      activate_kinds resp iid sect now [aty] s = .cont s) := by
  refine ⟨?_, ?_, ?_⟩
  · intro cfg dl t rest files c hid hcfg hpath hdl
    obtain ⟨iid, hiid⟩ := Option.isSome_iff_exists.mp hid
    rw [hiid] at hpath
    simp only [download_step, hiid, Option.isNone_some, Bool.false_eq_true,
      if_false, download_process, hcfg]
    rw [if_neg hpath, hdl]
  · intro r now t rest ready iid ts hid hts hr
    refine ⟨(if decide (ts < now + 180) = true then rest ++ [t] else rest)
      ++ [t], ready, ?_, ?_⟩
    · simp only [is_active_step, hid, hts, pyLt, hr, check_active_asset]
      rfl
    · exact List.mem_append_right _ (List.mem_singleton.mpr rfl)
  · intro resp iid sect now aty s hresp
    simp only [activate_kinds, hresp, check_active_asset]

/-- C6 counterexample: a parsed, non-empty response body that is missing the
field for the requested asset kind does not yield the indeterminate pair
`(None, None)` — the subscription on line 130 raises `KeyError`, so
`check_active_asset` does not return normally at all. -/
theorem check_missing_field_cex :
    check_active_asset (.body (.obj [("id", .str "x")])) (some "analytic") =
      .error (.keyError (some "analytic")) ∧
    retOk (check_active_asset (.body (.obj [("id", .str "x")]))
      (some "analytic")) = false :=
  ⟨rfl, rfl⟩

/-- C6 (amended): a body that fails JSON decoding yields `(None, None)`, and
so does a body that parses to a falsy (empty) value; but a non-empty parsed
body missing the field for the requested asset kind raises `KeyError`
instead of yielding indeterminate.  When a check does come back
indeterminate, the `activate` stage drops the task for that kind — the
queues are left unchanged and nothing is retried. -/
theorem check_malformed_handling :
    (∀ aty : Option String,
      check_active_asset .jsonError aty = .ok (none, none)) ∧
    (∀ (j : Json) (aty : Option String), j.falsy = true →
      check_active_asset (.body j) aty = .ok (none, none)) ∧
    (∀ (j : Json) (aty : Option String) (e : PyError), j.falsy = false →
      j.index aty = .error e →
      check_active_asset (.body j) aty = .error e) ∧
    (∀ (resp : String → AssetsResp) (iid sect : Option String) (now : Int)
        (aty : String) (lnk : Option Json) (s : ActState),
      check_active_asset (resp aty) (some aty) = .ok (none, lnk) →
      activate_kinds resp iid sect now [aty] s = .cont s) := by
  refine ⟨fun aty => rfl, ?_, ?_, ?_⟩
  · intro j aty hf
    simp only [check_active_asset, hf, if_true]
  · intro j aty e hf hidx
    simp only [check_active_asset, hf, Bool.false_eq_true, if_false, hidx]
  · intro resp iid sect now aty lnk s hchk
    simp only [activate_kinds, hchk]

/-- C6 witness: concrete instances — a decode failure and an empty body give
`(None, None)`; a body missing `analytic_xml` raises `KeyError`; and
`activate` leaves the queues unchanged when a check times out. -/
theorem check_malformed_handling_witness :
    check_active_asset .jsonError (some "analytic") = .ok (none, none) ∧
    check_active_asset (.body (.obj [])) (some "analytic") = .ok (none, none) ∧
    check_active_asset (.body (.obj [("id", .str "x")]))
      (some "analytic_xml") = .error (.keyError (some "analytic_xml")) ∧
    activate_kinds (fun _ => .readTimeout) (some "i") (some "r") 5
      ["analytic"] ⟨[taskA], [readyA], []⟩ = .cont ⟨[taskA], [readyA], []⟩ :=
  ⟨check_malformed_handling.1 (some "analytic"),
   check_malformed_handling.2.1 (.obj []) (some "analytic") rfl,
   check_malformed_handling.2.2.1 (.obj [("id", .str "x")])
     (some "analytic_xml") (.keyError (some "analytic_xml")) rfl rfl,
   check_malformed_handling.2.2.2 (fun _ => .readTimeout) (some "i")
     (some "r") 5 "analytic" none ⟨[taskA], [readyA], []⟩ rfl⟩

/-- C7 witness: concrete instances of the three recovery behaviours. -/
theorem transient_error_recovery_witness :
    download_step cfgOne (fun _ => .transient) ⟨[readyA], []⟩ =
      .cont ⟨[] ++ [readyA], []⟩ ∧
    (∃ p' rd', is_active_step respTimeout 101 ⟨[taskA], []⟩ =
      .cont ⟨p', rd'⟩ ∧ taskA ∈ p') ∧
    activate_kinds (fun _ => .readTimeout) (some "20230101_123456_abcd")
      (some "region1") 100 ["analytic"] ⟨[], [], []⟩ = .cont ⟨[], [], []⟩ :=
  ⟨transient_error_recovery.1 cfgOne (fun _ => .transient) readyA [] []
     ⟨"/data/region1", "2023-01-01", "2023-02-01", "0.5"⟩ rfl rfl
     (by simp) rfl,
   transient_error_recovery.2.1 respTimeout 101 taskA [] []
     "20230101_123456_abcd" 100 rfl rfl rfl,
   transient_error_recovery.2.2 (fun _ => .readTimeout)
     (some "20230101_123456_abcd") (some "region1") 100 "analytic"
     ⟨[], [], []⟩ rfl⟩

/-- C1 counterexample: one `is_active` cycle that dequeues a single real
task leaves two copies of it on the pending queue — more copies enqueued
than dequeued, violating the exactly-one-copy invariant. -/
theorem poll_duplication_cex :
    is_active_step respTimeout 101 ⟨[taskA], []⟩ =
      .cont ⟨[taskA, taskA], []⟩ ∧
    List.count taskA [taskA, taskA] = 2 :=
  ⟨rfl, rfl⟩

/-- C1 (amended): a single dequeue-and-process cycle of `is_active` on a
real task whose timestamp is below `now + 180` and whose check reports
active leaves two copies of the task on the pending queue (the timestamp
branch re-enqueue plus the unconditional line-108 re-enqueue) and
additionally a copy on the ready queue — the task is simultaneously in both
queues and duplicated, rather than in exactly one queue. -/
theorem poll_cycle_task_in_both_queues
    (r : String → Option String → AssetsResp) (now : Int) (iid : String)
    (st aty : Option String) (ts : Int) (rest : List PendTask)
    (ready : List ReadyTask) (link : Option Json)
    (hchk : check_active_asset (r iid aty) aty = .ok (some true, link))
    (hts : ts < now + 180) :
    ∃ p' rd',
      is_active_step r now ⟨⟨some iid, st, aty, some ts⟩ :: rest, ready⟩ =
        .cont ⟨p', rd'⟩ ∧
      List.count (⟨some iid, st, aty, some ts⟩ : PendTask) p' =
        List.count (⟨some iid, st, aty, some ts⟩ : PendTask) rest + 2 ∧
      (⟨some iid, st, aty, link⟩ : ReadyTask) ∈ rd' := by
  refine ⟨(if decide (ts < now + 180) then
      rest ++ [⟨some iid, st, aty, some ts⟩] else rest) ++
      [⟨some iid, st, aty, some ts⟩],
    ready ++ [⟨some iid, st, aty, link⟩], ?_, ?_, ?_⟩
  · simp only [is_active_step, pyLt, hchk]
    rfl
  · simp [hts, List.count_append]
  · exact List.mem_append_right _ (List.mem_singleton.mpr rfl)

/-- C1 witness: the amended behaviour at a concrete task and response. -/
theorem poll_cycle_task_in_both_queues_witness :
    ∃ p' rd',
      is_active_step respActive 101
        ⟨[⟨some "20230101_123456_abcd", some "region1", some "analytic",
           some 100⟩], []⟩ = .cont ⟨p', rd'⟩ ∧
      List.count (⟨some "20230101_123456_abcd", some "region1",
        some "analytic", some 100⟩ : PendTask) p' =
        List.count (⟨some "20230101_123456_abcd", some "region1",
          some "analytic", some 100⟩ : PendTask) ([] : List PendTask) + 2 ∧
      (⟨some "20230101_123456_abcd", some "region1", some "analytic",
        some (.str "http://api.planet.com/dl/1")⟩ : ReadyTask) ∈ rd' :=
  poll_cycle_task_in_both_queues respActive 101 "20230101_123456_abcd"
    (some "region1") (some "analytic") 100 [] []
    (some (.str "http://api.planet.com/dl/1")) rfl (by norm_num)

/-- C5: a dequeue-and-recheck cycle of `is_active` on a real task whose
status check returns never drops the task: whatever the check's outcome the
task is re-enqueued onto the pending queue, and when the outcome is active
the task is additionally promoted onto the ready queue. -/
theorem poll_no_task_loss
    (r : String → Option String → AssetsResp) (now : Int) (t : PendTask)
    (rest : List PendTask) (ready : List ReadyTask) (iid : String) (ts : Int)
    (active : Option Bool) (link : Option Json)
    (hid : t.item_id = some iid) (hts : t.timestamp = some ts)
    (hchk : check_active_asset (r iid t.asset_type) t.asset_type =
      .ok (active, link)) :
    ∃ p' rd', is_active_step r now ⟨t :: rest, ready⟩ = .cont ⟨p', rd'⟩ ∧
      t ∈ p' ∧
      (active = some true →
        (⟨t.item_id, t.sect, t.asset_type, link⟩ : ReadyTask) ∈ rd') := by
  refine ⟨(if decide (ts < now + 180) then rest ++ [t] else rest) ++ [t],
    if active = some true then
      ready ++ [⟨t.item_id, t.sect, t.asset_type, link⟩] else ready,
    ?_, ?_, ?_⟩
  · simp only [is_active_step, hid, hts, pyLt, hchk]
  · exact List.mem_append_right _ (List.mem_singleton.mpr rfl)
  · intro hact
    rw [if_pos hact]
    exact List.mem_append_right _ (List.mem_singleton.mpr rfl)

/-- C5 witness: a concrete active-reporting cycle keeps the task pending
and promotes it to the ready queue. -/
theorem poll_no_task_loss_witness :
    ∃ p' rd', is_active_step respActive 101 ⟨[taskA], []⟩ =
      .cont ⟨p', rd'⟩ ∧ taskA ∈ p' ∧
      (⟨taskA.item_id, taskA.sect, taskA.asset_type,
        some (.str "http://api.planet.com/dl/1")⟩ : ReadyTask) ∈ rd' := by
  simpa using poll_no_task_loss respActive 101 taskA [] []
    "20230101_123456_abcd" 100 (some true)
    (some (.str "http://api.planet.com/dl/1")) rfl rfl rfl

/-- C4: once a real task is pending, each `is_active` cycle that dequeues a
real task re-enqueues at least one copy of it (exactly two extra copies
whenever its timestamp is below `now + 180`); consequently, over any number
of iterations with returning checks, the pending queue never empties, the
stage never returns, and no termination marker is ever forwarded to the
ready queue. -/
theorem poll_pending_never_drains :
    (∀ (r : String → Option String → AssetsResp) (now : Int) (iid : String)
        (st aty : Option String) (ts : Int) (rest : List PendTask)
        (ready : List ReadyTask) (active : Option Bool) (link : Option Json),
      check_active_asset (r iid aty) aty = .ok (active, link) →
      ∃ p' rd',
        is_active_step r now ⟨⟨some iid, st, aty, some ts⟩ :: rest, ready⟩ =
          .cont ⟨p', rd'⟩ ∧
        List.count (⟨some iid, st, aty, some ts⟩ : PendTask) rest + 1 ≤
          List.count (⟨some iid, st, aty, some ts⟩ : PendTask) p' ∧
        (ts < now + 180 →
          List.count (⟨some iid, st, aty, some ts⟩ : PendTask) p' =
            List.count (⟨some iid, st, aty, some ts⟩ : PendTask) rest + 2)) ∧
    (∀ (envs : List ((String → Option String → AssetsResp) × Int))
        (s : PollState),
      (∀ e ∈ envs, RespOk e.1) → WfPend s.pending → hasRealTask s.pending →
      ∃ s', is_active_run envs s = .cont s' ∧ hasRealTask s'.pending ∧
        s'.pending.isEmpty = false ∧
        markerCount s'.ready = markerCount s.ready) := by
  constructor
  · intro r now iid st aty ts rest ready active link hchk
    refine ⟨(if decide (ts < now + 180) then
        rest ++ [⟨some iid, st, aty, some ts⟩] else rest) ++
        [⟨some iid, st, aty, some ts⟩],
      if active = some true then
        ready ++ [⟨some iid, st, aty, link⟩] else ready, ?_, ?_, ?_⟩
    · simp only [is_active_step, pyLt, hchk]
    · by_cases hlt : ts < now + 180 <;>
        simp [hlt, List.count_append]
    · intro hlt
      simp [hlt, List.count_append]
  · intro envs s hok hwf hreal
    obtain ⟨s', hrun, hwf', hreal', hmc⟩ :=
      is_active_run_preserves envs s hok hwf hreal
    obtain ⟨t, ht, htr⟩ := hreal'
    refine ⟨s', hrun, ⟨t, ht, htr⟩, ?_, hmc⟩
    cases hp : s'.pending with
    | nil => rw [hp] at ht; cases ht
    | cons a l => rfl

/-- C4 witness: the single-cycle counts and the multi-step invariance at a
concrete task, state and environment. -/
theorem poll_pending_never_drains_witness :
    (∃ p' rd',
      is_active_step respTimeout 101
        ⟨[⟨some "20230101_123456_abcd", some "region1", some "analytic",
           some 100⟩], []⟩ = .cont ⟨p', rd'⟩ ∧
      List.count (⟨some "20230101_123456_abcd", some "region1",
        some "analytic", some 100⟩ : PendTask) ([] : List PendTask) + 1 ≤
        List.count (⟨some "20230101_123456_abcd", some "region1",
          some "analytic", some 100⟩ : PendTask) p' ∧
      ((100 : Int) < 101 + 180 →
        List.count (⟨some "20230101_123456_abcd", some "region1",
          some "analytic", some 100⟩ : PendTask) p' =
          List.count (⟨some "20230101_123456_abcd", some "region1",
            some "analytic", some 100⟩ : PendTask) ([] : List PendTask) + 2)) ∧
    (∃ s', is_active_run [(respTimeout, 101)] pollAfterActivate =
      .cont s' ∧ hasRealTask s'.pending ∧ s'.pending.isEmpty = false ∧
      markerCount s'.ready = markerCount pollAfterActivate.ready) :=
  ⟨poll_pending_never_drains.1 respTimeout 101 "20230101_123456_abcd"
     (some "region1") (some "analytic") 100 [] [] none none rfl,
   poll_pending_never_drains.2 [(respTimeout, 101)] pollAfterActivate
     (fun e he => by rw [List.mem_singleton.mp he]; exact respTimeout_ok)
     pollAfterActivate_wf pollAfterActivate_hasReal⟩

/-- C3 counterexample: from the state `activate` leaves behind when one real
asset task was created before the marker, no number of `is_active`
iterations ever forwards a termination marker to the ready queue — the
marker is not delivered exactly once, it is never delivered. -/
theorem poll_marker_never_forwarded_cex :
    MarkerNeverForwarded pollAfterActivate := by
  intro n
  obtain ⟨s', hrun, _, _, hmc⟩ := is_active_run_preserves
    (List.replicate n (respTimeout, 101)) pollAfterActivate
    (replicate_timeout_ok n) pollAfterActivate_wf pollAfterActivate_hasReal
  exact ⟨s', hrun, hmc⟩

/-- C3 (amended): the `activate` stage forwards the marker exactly once to
the pending queue and returns; `is_active`, on a marker with an otherwise
empty pending queue, forwards exactly one marker to the ready queue and
returns; but once a real task is on the pending queue, any number of
`is_active` iterations with returning checks forwards no marker at all, so
the ready queue's consumer can see the marker only in executions whose
pending queue never held a real task. -/
theorem termination_marker_flow :
    (∀ (resp : String → AssetsResp) (now : Int) (s : ActState),
      activate_step resp now (none, none) s =
        .ret ⟨s.pending ++ [pendMarker], s.ready, s.activations⟩) ∧
    (∀ (r : String → Option String → AssetsResp) (now : Int)
        (ready : List ReadyTask),
      is_active_step r now ⟨[pendMarker], ready⟩ =
        .ret ⟨[], ready ++ [readyMarker]⟩) ∧
    (∀ (envs : List ((String → Option String → AssetsResp) × Int))
        (s : PollState),
      (∀ e ∈ envs, RespOk e.1) → WfPend s.pending → hasRealTask s.pending →
      ∃ s', is_active_run envs s = .cont s' ∧
        markerCount s'.ready = markerCount s.ready) := by
  refine ⟨fun resp now s => rfl, fun r now ready => rfl, ?_⟩
  intro envs s hok hwf hreal
  obtain ⟨s', hrun, _, _, hmc⟩ := is_active_run_preserves envs s hok hwf hreal
  exact ⟨s', hrun, hmc⟩

/-- C3 witness: the marker hand-offs and the no-forwarding invariance at
concrete inputs. -/
theorem termination_marker_flow_witness :
    activate_step (fun _ => .readTimeout) 100 (none, none) ⟨[], [], []⟩ =
      .ret ⟨[] ++ [pendMarker], [], []⟩ ∧
    is_active_step respTimeout 101 ⟨[pendMarker], []⟩ =
      .ret ⟨[], [] ++ [readyMarker]⟩ ∧
    (∃ s', is_active_run [(respTimeout, 101)] pollAfterActivate =
      .cont s' ∧ markerCount s'.ready = markerCount pollAfterActivate.ready) :=
  ⟨termination_marker_flow.1 (fun _ => .readTimeout) 100 ⟨[], [], []⟩,
   termination_marker_flow.2.1 respTimeout 101 [],
   termination_marker_flow.2.2 [(respTimeout, 101)] pollAfterActivate
     (fun e he => by rw [List.mem_singleton.mp he]; exact respTimeout_ok)
     pollAfterActivate_wf pollAfterActivate_hasReal⟩

/-- C8 counterexample: for the region configured with `from = 2023-01-01`,
the `gte` bound inside the built date-range filter is the day-start
timestamp string, not the configured date value itself. -/
theorem search_query_gte_cex :
    (do
      let j ← search_query geomFix sectFix
      let f ← j.index (some "filter")
      let cf ← f.index (some "config")
      let d ← cf.atIdx 1
      let dc ← d.index (some "config")
      dc.index (some "gte") : Except PyError Json) =
      .ok (.str "2023-01-01T00:00:00.000Z") ∧
    ("2023-01-01T00:00:00.000Z" == "2023-01-01") = false :=
  ⟨rfl, rfl⟩

/-- C8 (amended): for every geometry, configuration section and numeric
cloud ceiling, the built query document is the AndFilter of exactly the
geometry filter on field `geometry`, the date-range filter on field
`acquired` with bounds `gte`/`lte` equal to the configured dates suffixed
with `T00:00:00.000Z`, and the range filter on field `cloud_cover` whose
`lte` is the parsed numeric ceiling (a number, not a string). -/
theorem search_query_filter_structure (g : Json) (c : SectCfg) (q : Rat)
    (hq : pyFloat c.cloud_limit = some q) :
    search_query g c = .ok (.obj [
      ("interval", .str "day"),
      ("item_types", .arr [.str ITEM_TYPE]),
      ("filter", .obj [
        ("type", .str "AndFilter"),
        ("config", .arr [
          .obj [("type", .str "GeometryFilter"),
                ("field_name", .str "geometry"),
                ("config", g)],
          .obj [("type", .str "DateRangeFilter"),
                ("field_name", .str "acquired"),
                ("config", .obj [
                  ("gte", .str (c.fromDate ++ "T00:00:00.000Z")),
                  ("lte", .str (c.toDate ++ "T00:00:00.000Z"))])],
          .obj [("type", .str "RangeFilter"),
                ("field_name", .str "cloud_cover"),
                ("config", .obj [("lte", .num q)])]])])]) := by
  simp only [search_query, hq]

/-- C8 witness: the concrete section with cloud ceiling string `0.5`
produces the document with the numeric value one half (that is, `0.5`). -/
theorem search_query_filter_structure_witness :
    search_query geomFix sectFix = .ok (.obj [
      ("interval", .str "day"),
      ("item_types", .arr [.str ITEM_TYPE]),
      ("filter", .obj [
        ("type", .str "AndFilter"),
        ("config", .arr [
          .obj [("type", .str "GeometryFilter"),
                ("field_name", .str "geometry"),
                ("config", geomFix)],
          .obj [("type", .str "DateRangeFilter"),
                ("field_name", .str "acquired"),
                ("config", .obj [
                  ("gte", .str ("2023-01-01" ++ "T00:00:00.000Z")),
                  ("lte", .str ("2023-02-01" ++ "T00:00:00.000Z"))])],
          .obj [("type", .str "RangeFilter"),
                ("field_name", .str "cloud_cover"),
                ("config", .obj [("lte", .num (mkRat 1 2))])]])])]) ∧
    mkRat 1 2 = 0.5 :=
  ⟨search_query_filter_structure geomFix sectFix (mkRat 1 2) rfl,
   by norm_num [mkRat]⟩

end PlanetDl
